import Mathlib

/-!
Verification of the Chuti chat backend's real-time messaging gateway and
content-safety pipeline, as a shallow embedding of the JavaScript source.

Conventions of the embedding:
* Mongo ObjectIds, socket ids and emoji are `String`s; timestamps are `Nat`
  milliseconds (JS `Date.getTime()`).
* The external text classifier is modelled by a `ClassifierOutcome` input:
  either a successful HTTP response carrying the boolean `result` field, or a
  transport failure carrying the axios error `code` and `message`.
* Stateful handlers become pure functions from an explicit state to a new
  state plus the list of socket emits they perform; `setImmediate` background
  work becomes a list of scheduled task descriptions, executed by a separate
  function after the response value is already fixed.
-/

namespace Chuti

/-- JS `String.prototype.trim`: strip leading and trailing whitespace.
(Defined over the character list so that the kernel can evaluate it on
concrete inputs; `String.trim` of core does not reduce.) -/
def jsTrim (s : String) : String :=
  String.mk (((s.data.dropWhile Char.isWhitespace).reverse.dropWhile
    Char.isWhitespace).reverse)

/-! ## Data model (src/Models/Chat.js, src/Models/Message.js) -/

/-- One entry of `chatSchema.participants`. -/
structure Participant where
  user : String
  role : String
  isActive : Bool
  deriving Repr, DecidableEq

/-- The fields of a `Chat` document used by the messaging gateway. -/
structure Chat where
  id : String
  participants : List Participant
  isActive : Bool
  lastMessage : Option String
  lastActivity : Nat
  deriving Repr, DecidableEq

/-- Method `chatSchema.methods.isParticipant` (Chat.js:106): some participant entry
has this user id and is active.  (The populated/non-populated `_id` handling
collapses to plain id comparison.) -/
def Chat.isParticipant (c : Chat) (userId : String) : Bool :=
  c.participants.any (fun p => p.user == userId && p.isActive)

/-- Method `chatSchema.methods.getUserRole` (Chat.js:118). -/
def Chat.getUserRole (c : Chat) (userId : String) : Option String :=
  (c.participants.find? (fun p => p.user == userId && p.isActive)).map (·.role)

/-- Method `chatSchema.methods.canModerate` (Chat.js:130). -/
def Chat.canModerate (c : Chat) (userId : String) : Bool :=
  c.getUserRole userId == some "admin" || c.getUserRole userId == some "moderator"

/-- One entry of `messageSchema.readBy`. -/
structure ReadReceipt where
  user : String
  readAt : Nat
  deriving Repr, DecidableEq

/-- One entry of `messageSchema.reactions` (the `createdAt` default plays no
role in any handler and is omitted). -/
structure Reaction where
  user : String
  emoji : String
  deriving Repr, DecidableEq

/-- The fields of a `Message` document used by the messaging gateway. -/
structure Message where
  id : String
  content : String
  messageType : String
  sender : String
  chat : String
  replyTo : Option String
  isEdited : Bool
  editedAt : Option Nat
  isDeleted : Bool
  readBy : List ReadReceipt
  reactions : List Reaction
  createdAt : Nat
  deriving Repr, DecidableEq

/-! ## Moderation client (src/middleware/moderationMiddleware.js) -/

/-- What one attempt against the external classifier produced: a successful
HTTP response with its boolean `result` field, or an axios transport failure
with its error `code` and `message`. -/
inductive ClassifierOutcome where
  | success (result : Bool)
  | failure (code : String) (message : String)
  deriving Repr, DecidableEq

/-- The object `ContentModerationService.checkSexualContent` resolves with.
`error = none` models the success objects, which carry no `error` field. -/
structure ModerationResult where
  is_sexual : Bool
  message : String
  error : Option String
  deriving Repr, DecidableEq

/-- Client method `ContentModerationService.checkSexualContent`
(moderationMiddleware.js:35-90).  Empty or whitespace-only text short-circuits
to approved without consulting the classifier; a successful response blocks
iff `result === true`; `ECONNREFUSED`/`ETIMEDOUT` failures approve with the
distinguished `service_unavailable` error tag; every other failure approves
carrying that failure's own message as the error tag. -/
def checkSexualContent (text : String) (outcome : ClassifierOutcome) :
    ModerationResult :=
  if (jsTrim text).length == 0 then
    { is_sexual := false, message := "Empty text - approved", error := none }
  else
    match outcome with
    | .success r =>
        { is_sexual := r
          message := if r then "Sexual content detected - blocked" else "Content approved"
          error := none }
    | .failure code msg =>
        if code == "ECONNREFUSED" || code == "ETIMEDOUT" then
          { is_sexual := false
            message := "Moderation service unavailable - approved"
            error := some "service_unavailable" }
        else
          { is_sexual := false
            message := "Moderation error - approved"
            error := some msg }

/-! ## Content monitoring (src/services/contentMonitoringService.js) -/

/-- The object `quickContentCheck`/`monitorTextContent` resolve with. -/
structure MonitorResult where
  blocked : Bool
  approved : Bool
  reason : Option String
  userMessage : Option String
  deriving Repr, DecidableEq

/-- Service method `ContentMonitoringService.quickContentCheck`
(contentMonitoringService.js:18-42): run `checkSexualContent`; a sexual
verdict yields the blocked object with reason `sexual_content` and the
user-facing message, anything else yields the approved object. -/
def quickContentCheck (content : String) (outcome : ClassifierOutcome) :
    MonitorResult :=
  let m := checkSexualContent content outcome
  if m.is_sexual then
    { blocked := true, approved := false
      reason := some "sexual_content"
      userMessage := some "Your message contains inappropriate content and has been blocked. Please keep conversations appropriate." }
  else
    { blocked := false, approved := true, reason := none, userMessage := none }

/-- Arguments of one deferred `sendParentNotificationAsync` invocation
(scheduled with `setImmediate`, off the response path). -/
structure ScheduledTask where
  content : String
  senderId : String
  chatId : String
  contentType : String
  deriving Repr, DecidableEq

/-- Service method `ContentMonitoringService.monitorTextContent`
(contentMonitoringService.js:119-141): quick check first; when blocked,
schedule the parent-notification background task and return the blocked
result immediately; otherwise return approved with no task. -/
def monitorTextContent (content senderId chatId : String)
    (outcome : ClassifierOutcome) : MonitorResult × List ScheduledTask :=
  let quick := quickContentCheck content outcome
  if quick.blocked then
    (quick, [{ content := content, senderId := senderId, chatId := chatId
               contentType := "text" }])
  else
    ({ blocked := false, approved := true, reason := none, userMessage := none }, [])

/-! ## Guardian notifier (contentMonitoringService.js:51-110) -/

/-- The sender fields `sendParentNotificationAsync` selects. -/
structure SenderInfo where
  username : String
  email : String
  fullName : Option String
  parentEmail : Option String
  deriving Repr, DecidableEq

/-- Observable outcome of one run of the deferred notification task body. -/
structure NotifOutcome where
  emailAttempted : Bool
  emailDelivered : Bool
  incidentLogged : Bool
  skippedReason : Option String
  deriving Repr, DecidableEq

/-- The body of the `setImmediate` callback in `sendParentNotificationAsync`
(contentMonitoringService.js:53-109).  A missing sender returns early; a
sender with no `parentEmail` on file returns early (documented no-op); the
email delivery attempt sits in an inner try/catch, so a delivery failure is
logged and execution continues to `logContentIncident`, which runs (with
`parentNotified: true`) whether or not the email went through.  The function
is total: no branch re-raises. -/
def runParentNotification (_t : ScheduledTask) (sender : Option SenderInfo)
    (_chat : Option Chat) (emailOutcome : Except String Unit) : NotifOutcome :=
  match sender with
  | none =>
      { emailAttempted := false, emailDelivered := false
        incidentLogged := false, skippedReason := some "sender_not_found" }
  | some s =>
      match s.parentEmail with
      | none =>
          { emailAttempted := false, emailDelivered := false
            incidentLogged := false, skippedReason := some "no_parent_email" }
      | some _ =>
          let delivered := match emailOutcome with
            | .ok _ => true
            | .error _ => false
          { emailAttempted := true, emailDelivered := delivered
            incidentLogged := true, skippedReason := none }

/-- The full blocked-message flow with its background work made explicit:
`monitorTextContent` fixes the value returned to the sender, then each task it
scheduled runs against the user store, chat store and email collaborator. -/
def monitorAndNotify (content senderId chatId : String)
    (outcome : ClassifierOutcome) (sender : Option SenderInfo)
    (chat : Option Chat) (emailOutcome : Except String Unit) :
    MonitorResult × List NotifOutcome :=
  let r := monitorTextContent content senderId chatId outcome
  (r.1, r.2.map (fun t => runParentNotification t sender chat emailOutcome))

/-! ## JS `Map` as an association list (src/unnamed/part_001 uses
`connectedUsers : Map userId -> socketId` and `userSockets : Map socketId ->
userId`).  `mapSet` replaces an existing binding in place (JS `Map.set`),
`mapDelete` removes the binding, `mapGet`/`mapHas` look one up. -/

def mapSet {α : Type} (m : List (String × α)) (k : String) (v : α) :
    List (String × α) :=
  if m.any (fun p => p.1 == k) then
    m.map (fun p => if p.1 == k then (k, v) else p)
  else
    m ++ [(k, v)]

def mapDelete {α : Type} (m : List (String × α)) (k : String) :
    List (String × α) :=
  m.filter (fun p => p.1 != k)

def mapGet {α : Type} (m : List (String × α)) (k : String) : Option α :=
  (m.find? (fun p => p.1 == k)).map Prod.snd

def mapHas {α : Type} (m : List (String × α)) (k : String) : Bool :=
  m.any (fun p => p.1 == k)

/-! ## Socket gateway state (src/unnamed/part_001, class SocketService) -/

/-- The connection-tracking state the `SocketService` instance owns, plus the
socket.io room membership (`socket.join`) and the persisted
`User.isOnline` flag that `updateUserOnlineStatus` writes. -/
structure SocketState where
  connectedUsers : List (String × String)
  userSockets : List (String × String)
  rooms : List (String × String)
  dbOnline : List (String × Bool)
  deriving Repr, DecidableEq

/-- Destination of one socket.io emit: `socket.emit` to one connection,
`io.to(room).emit` to every connection in a room, or `socket.to(room).emit`
to every connection in a room except the emitting one. -/
inductive EmitTarget where
  | socket (id : String)
  | room (name : String)
  | roomExcept (name : String) (sender : String)
  deriving Repr, DecidableEq

/-- One emitted socket.io event. -/
structure Emit where
  target : EmitTarget
  event : String
  deriving Repr, DecidableEq

/-- Whether socket `sid` currently sits in room `r`. -/
def SocketState.inRoom (st : SocketState) (sid r : String) : Bool :=
  st.rooms.contains (sid, r)

/-- Which live sockets one emit reaches, given the current room membership. -/
def deliveredTo (st : SocketState) (e : Emit) (sid : String) : Bool :=
  match e.target with
  | .socket s => s == sid
  | .room r => st.inRoom sid r
  | .roomExcept r ex => st.inRoom sid r && sid != ex

/-- The `Chat.find({'participants.user': u, 'participants.isActive': true,
isActive: true})` query `joinUserChats` issues (part_001:186-190).  Mongo
matches the two array conditions against possibly different participant
entries of the same document. -/
def mongoUserChats (chats : List Chat) (userId : String) : List Chat :=
  chats.filter (fun c =>
    c.participants.any (fun p => p.user == userId)
      && c.participants.any (fun p => p.isActive)
      && c.isActive)

/-- The `connection` handler (part_001:64-81): overwrite both map entries
(last connection wins), join the personal room `user_<id>`, join every chat
room the membership snapshot reports, and mark the user online. -/
def handleConnection (st : SocketState) (chats : List Chat)
    (userId socketId : String) : SocketState :=
  { connectedUsers := mapSet st.connectedUsers userId socketId
    userSockets := mapSet st.userSockets socketId userId
    rooms :=
      ((mongoUserChats chats userId).map
        (fun c => (socketId, "chat_" ++ c.id)))
        ++ (socketId, "user_" ++ userId) :: st.rooms
    dbOnline := mapSet st.dbOnline userId true }

/-- Method `SocketService.handleDisconnection` (part_001:497-504): delete the
user's `connectedUsers` entry outright and the socket's `userSockets` entry,
then mark the user offline. -/
def handleDisconnection (st : SocketState) (userId socketId : String) :
    SocketState :=
  { st with
    connectedUsers := mapDelete st.connectedUsers userId
    userSockets := mapDelete st.userSockets socketId
    dbOnline := mapSet st.dbOnline userId false }

/-- Method `SocketService.emitToUser` (part_001:507-512): only if the user has an
entry in `connectedUsers` is the event emitted to their personal room;
otherwise it is silently dropped. -/
def emitToUser (st : SocketState) (userId event : String) : List Emit :=
  match mapGet st.connectedUsers userId with
  | some _ => [{ target := .room ("user_" ++ userId), event := event }]
  | none => []

/-- Method `SocketService.getUserStatus` (part_001:526-528). -/
def getUserStatus (st : SocketState) (userId : String) : Bool :=
  mapHas st.connectedUsers userId

/-- The `joinChat` handler (part_001:360-374): unconditionally join the
socket to room `chat_<chatId>` and notify the room's other members.  No
membership, existence or authorization check precedes the join. -/
def joinChatHandler (st : SocketState) (socketId _userId chatId : String) :
    SocketState × List Emit :=
  ({ st with rooms := (socketId, "chat_" ++ chatId) :: st.rooms },
   [{ target := .roomExcept ("chat_" ++ chatId) socketId
      event := "userJoinedChat" }])

/-! ## Message store and the socket `sendMessage` pipeline -/

/-- The persisted collections the messaging handlers touch. -/
structure ServerState where
  chats : List Chat
  messages : List Message
  deriving Repr, DecidableEq

/-- Lookup `Chat.findById`. -/
def findChat (chats : List Chat) (id : String) : Option Chat :=
  chats.find? (fun c => c.id == id)

/-- Lookup `Message.findById`. -/
def findMessage (msgs : List Message) (id : String) : Option Message :=
  msgs.find? (fun m => m.id == id)

/-- Payload of the inbound `sendMessage` socket event; a missing/falsy
`chatId` or `content` is modelled by the empty string. -/
structure SocketSendInput where
  chatId : String
  content : String
  messageType : String
  replyTo : Option String
  deriving Repr, DecidableEq

/-- The `sendMessage` socket handler (part_001:207-317).
Order of the source: (1) validate `chatId`/`content`; (2) for `text`
messages run `monitorTextContent` and, when blocked, emit `messageBlocked` to
the sender only and stop (the scheduled guardian task is the monitor's);
(3) re-check chat existence, activity and membership against the store;
(4) persist the message, move the chat's `lastMessage`/`lastActivity`
pointers, fan `newMessage` out to room `chat_<chatId>`, acknowledge the
sender with `messageSent`.  `now` is the clock reading and `freshId` the id
Mongo assigns to the new document. -/
def sendMessageHandler (st : ServerState) (senderSocket senderUser : String)
    (inp : SocketSendInput) (outcome : ClassifierOutcome) (now : Nat)
    (freshId : String) : ServerState × List Emit × List ScheduledTask :=
  if inp.chatId == "" || inp.content == ""
      || (jsTrim inp.content).length == 0 then
    (st, [{ target := .socket senderSocket, event := "error" }], [])
  else
    let mon :=
      if inp.messageType == "text" then
        monitorTextContent inp.content senderUser inp.chatId outcome
      else
        ({ blocked := false, approved := true
           reason := none, userMessage := none }, [])
    if mon.1.blocked then
      (st, [{ target := .socket senderSocket, event := "messageBlocked" }],
       mon.2)
    else
      match findChat st.chats inp.chatId with
      | none =>
          (st, [{ target := .socket senderSocket, event := "error" }], mon.2)
      | some chat =>
          if !chat.isActive || !chat.isParticipant senderUser then
            (st, [{ target := .socket senderSocket, event := "error" }], mon.2)
          else
            let msg : Message :=
              { id := freshId, content := jsTrim inp.content
                messageType := inp.messageType, sender := senderUser
                chat := inp.chatId, replyTo := inp.replyTo
                isEdited := false, editedAt := none, isDeleted := false
                readBy := [], reactions := [], createdAt := now }
            ({ chats := st.chats.map (fun c =>
                  if c.id == inp.chatId then
                    { c with lastMessage := some freshId, lastActivity := now }
                  else c)
               messages := st.messages ++ [msg] },
             [{ target := .room ("chat_" ++ inp.chatId), event := "newMessage" },
              { target := .socket senderSocket, event := "messageSent" }],
             mon.2)

/-- The per-document effect of the `markMessagesRead` update
(part_001:329-343): `updateMany` selects messages whose id is in the set,
that belong to the chat, and whose `readBy` has no entry for this user
(`'readBy.user': {$ne: userId}`), and `$addToSet`s a fresh read receipt. -/
def applyMarkRead (m : Message) (chatId : String) (messageIds : List String)
    (userId : String) (now : Nat) : Message :=
  if messageIds.contains m.id && m.chat == chatId
      && !(m.readBy.any (fun r => r.user == userId)) then
    { m with readBy := m.readBy ++ [{ user := userId, readAt := now }] }
  else
    m

/-- The store-wide `updateMany` of the `markMessagesRead` handler. -/
def markMessagesRead (msgs : List Message) (chatId : String)
    (messageIds : List String) (userId : String) (now : Nat) : List Message :=
  msgs.map (fun m => applyMarkRead m chatId messageIds userId now)

/-- The `markMessagesRead` socket handler (part_001:320-355): nothing happens
without a `chatId`; otherwise the read-set update runs and the read receipt
is broadcast to the chat room minus the sender. -/
def markMessagesReadHandler (st : ServerState)
    (senderSocket senderUser chatId : String) (messageIds : List String)
    (now : Nat) : ServerState × List Emit :=
  if chatId == "" then
    (st, [])
  else
    ({ st with
        messages := markMessagesRead st.messages chatId messageIds senderUser now },
     [{ target := .roomExcept ("chat_" ++ chatId) senderSocket
        event := "messagesRead" }])

/-! ## REST message controller (src/Controllers/messageController.js, wired
by src/Routes/messageRoutes.js) -/

/-- HTTP-level outcome of `editMessage`. -/
inductive EditOutcome where
  | badRequest (msg : String)
  | notFound
  | forbidden
  | ok
  deriving Repr, DecidableEq

/-- The constant `15 * 60 * 1000` milliseconds (messageController.js:238). -/
def editTimeLimit : Nat := 15 * 60 * 1000

/-- Controller `editMessage` (messageController.js:208-282).  Order of the source:
empty trimmed content is a 400; a missing or deleted message is a 404; a
non-sender is a 403; a message older than the 15-minute window is a 400
with `Message edit time limit exceeded`; otherwise the stored content is
replaced by the trimmed new content and the edit flags are set.  No chat
membership is consulted before the update (the chat is loaded afterwards
only for the fan-out, omitted here). -/
def editMessage (msgs : List Message) (messageId content userId : String)
    (now : Nat) : EditOutcome × List Message :=
  if (jsTrim content).length == 0 then
    (.badRequest "Content is required", msgs)
  else
    match findMessage msgs messageId with
    | none => (.notFound, msgs)
    | some m =>
        if m.isDeleted then (.notFound, msgs)
        else if m.sender != userId then (.forbidden, msgs)
        else if now - m.createdAt > editTimeLimit then
          (.badRequest "Message edit time limit exceeded", msgs)
        else
          (.ok,
           msgs.map (fun m2 =>
             if m2.id == messageId then
               { m2 with
                  content := jsTrim content
                  isEdited := true
                  editedAt := some now }
             else m2))

/-- Outcome of a route whose chain starts with `sexualContentMiddleware`. -/
inductive PipelineOutcome where
  | moderationBlocked
  | handler (o : EditOutcome)
  deriving Repr, DecidableEq

/-- The `PUT /:messageId` chain of messageRoutes.js:21:
`sexualContentMiddleware` (moderationMiddleware.js:99-144) then
`editMessage`.  The middleware skips moderation for empty/whitespace
content; a sexual verdict answers 400 with the blocked body and never calls
`next()`, so the controller never runs and the store is untouched;
otherwise the controller runs. -/
def editMessagePipeline (msgs : List Message) (messageId content userId : String)
    (now : Nat) (outcome : ClassifierOutcome) :
    PipelineOutcome × List Message :=
  if (jsTrim content).length == 0 then
    let r := editMessage msgs messageId content userId now
    (.handler r.1, r.2)
  else if (checkSexualContent content outcome).is_sexual then
    (.moderationBlocked, msgs)
  else
    let r := editMessage msgs messageId content userId now
    (.handler r.1, r.2)

/-- HTTP-level outcome of `getChatMessages`; `ok` carries the page the
client sees (pagination and sorting omitted: the claim concerns only
the access decision). -/
inductive ReadOutcome where
  | notFound
  | accessDenied
  | ok (page : List Message)
  deriving Repr, DecidableEq

/-- Controller `getChatMessages` (messageController.js:102-205): a missing or inactive
chat is a 404; a non-participant gets 403 `Access denied` before anything is
read or marked; a participant receives the chat's undeleted messages and the
ones they had not read gain a read receipt. -/
def getChatMessages (st : ServerState) (chatId userId : String) (now : Nat) :
    ReadOutcome × ServerState :=
  match findChat st.chats chatId with
  | none => (.notFound, st)
  | some chat =>
      if !chat.isActive then (.notFound, st)
      else if !chat.isParticipant userId then (.accessDenied, st)
      else
        let visible := st.messages.filter
          (fun m => m.chat == chatId && !m.isDeleted)
        let unreadIds := (visible.filter
          (fun m => !(m.readBy.any (fun r => r.user == userId)))).map (·.id)
        (.ok visible,
         { st with
            messages := st.messages.map (fun m =>
              if unreadIds.contains m.id then
                { m with readBy := m.readBy ++ [{ user := userId, readAt := now }] }
              else m) })

/-- The toggle of `addReaction` on the reactions array
(messageController.js:372-386): `findIndex` of the first entry with this
user and emoji; found means `splice` it out, absent means `push` a new
entry. -/
def toggleReaction (reactions : List Reaction) (userId emoji : String) :
    List Reaction :=
  match reactions.findIdx? (fun r => r.user == userId && r.emoji == emoji) with
  | some i => reactions.eraseIdx i
  | none => reactions ++ [{ user := userId, emoji := emoji }]

/-- HTTP-level outcome of `addReaction` (`serverError` models the TypeError
the catch-all turns into a 500 when the message's chat document is gone). -/
inductive ReactionOutcome where
  | badRequest
  | notFound
  | accessDenied
  | serverError
  | ok (reactions : List Reaction)
  deriving Repr, DecidableEq

/-- Controller `addReaction` (messageController.js:342-416): missing emoji is 400;
missing or deleted message is 404; a non-participant of the message's chat
is 403; otherwise the toggle runs and is saved. -/
def addReaction (st : ServerState) (messageId emoji userId : String) :
    ReactionOutcome × ServerState :=
  if emoji == "" then (.badRequest, st)
  else
    match findMessage st.messages messageId with
    | none => (.notFound, st)
    | some m =>
        if m.isDeleted then (.notFound, st)
        else
          match findChat st.chats m.chat with
          | none => (.serverError, st)
          | some chat =>
              if !chat.isParticipant userId then (.accessDenied, st)
              else
                (.ok (toggleReaction m.reactions userId emoji),
                 { st with
                    messages := st.messages.map (fun m2 =>
                      if m2.id == messageId then
                        { m2 with reactions := toggleReaction m2.reactions userId emoji }
                      else m2) })

/-! ## Helper lemmas about the association-list map operations -/

theorem mapGet_mapSet_self {α : Type} (m : List (String × α)) (k : String)
    (v : α) : mapGet (mapSet m k v) k = some v := by
  unfold mapGet mapSet
  by_cases h : m.any (fun p => p.1 == k) = true
  · rw [if_pos h]
    have hcomp : ((fun p : String × α => p.1 == k)
        ∘ (fun p => if p.1 == k then (k, v) else p)) = fun p => p.1 == k := by
      funext p
      by_cases hp : (p.1 == k) = true
      · have hp2 : p.1 = k := by simpa using hp
        simp [hp2]
      · have hp2 : ¬p.1 = k := by simpa using hp
        simp [hp2]
    rw [List.find?_map, hcomp]
    have hsome : (m.find? (fun p => p.1 == k)).isSome = true :=
      List.find?_isSome.mpr (List.any_eq_true.mp h)
    obtain ⟨q, hq⟩ := Option.isSome_iff_exists.mp hsome
    have hqk := List.find?_some hq
    rw [hq]
    have hq2 : q.1 = k := by simpa using hqk
    simp [hq2]
  · rw [if_neg h]
    have hnone : m.find? (fun p => p.1 == k) = none :=
      List.find?_eq_none.mpr
        (fun x hx hxk => h (List.any_eq_true.mpr ⟨x, hx, hxk⟩))
    rw [List.find?_append, hnone]
    simp

theorem mapGet_mapDelete_self {α : Type} (m : List (String × α))
    (k : String) : mapGet (mapDelete m k) k = none := by
  unfold mapGet mapDelete
  have hnone : (m.filter (fun p => p.1 != k)).find? (fun p => p.1 == k)
      = none := by
    rw [List.find?_eq_none]
    intro x hx hxk
    have hne := (List.mem_filter.mp hx).2
    have h1 : x.1 = k := by simpa using hxk
    have h2 : ¬x.1 = k := by simpa using hne
    exact h2 h1
  rw [hnone]
  rfl

theorem mapHas_mapDelete_self {α : Type} (m : List (String × α))
    (k : String) : mapHas (mapDelete m k) k = false := by
  unfold mapHas mapDelete
  rw [Bool.eq_false_iff]
  intro hany
  rcases List.any_eq_true.mp hany with ⟨x, hx, hxk⟩
  have hne := (List.mem_filter.mp hx).2
  have h1 : x.1 = k := by simpa using hxk
  have h2 : ¬x.1 = k := by simpa using hne
  exact h2 h1

/-- C7: if an identity opens a second connection while its first is still
tracked (the `connectedUsers` entry is overwritten, last connection wins),
then when the superseded first connection disconnects,
`handleDisconnection` deletes the identity's `connectedUsers` entry outright
and marks the identity offline — so `getUserStatus` then reports the
identity as disconnected, `emitToUser` drops per-identity emits, and the
persisted online flag is false, even though the newer connection is still
live. -/
theorem supersededDisconnect_clears_tracking (st : SocketState)
    (chats1 chats2 : List Chat) (u s1 s2 ev : String) :
    mapGet (handleConnection (handleConnection st chats1 u s1) chats2 u s2).connectedUsers u
      = some s2
    ∧ getUserStatus
        (handleDisconnection
          (handleConnection (handleConnection st chats1 u s1) chats2 u s2) u s1) u
      = false
    ∧ emitToUser
        (handleDisconnection
          (handleConnection (handleConnection st chats1 u s1) chats2 u s2) u s1) u ev
      = []
    ∧ mapGet
        (handleDisconnection
          (handleConnection (handleConnection st chats1 u s1) chats2 u s2) u s1).dbOnline u
      = some false := by
  refine ⟨?_, ?_, ?_, ?_⟩
  · simp [handleConnection, mapGet_mapSet_self]
  · simp [handleDisconnection, getUserStatus, mapHas_mapDelete_self]
  · simp [handleDisconnection, emitToUser, mapGet_mapDelete_self]
  · simp [handleDisconnection, mapGet_mapSet_self]

/-- C2 counterexample: a transport failure whose axios code is
`ECONNRESET` (neither `ECONNREFUSED` nor `ETIMEDOUT`) is approved, but its
verdict carries the raw error message instead of the distinguished
`service_unavailable` reason — refuting the claim that every transport
error carries the service-unavailable-fallback reason. -/
theorem checkSexualContent_econnreset_cex :
    (checkSexualContent "hello" (.failure "ECONNRESET" "socket hang up"))
      = { is_sexual := false, message := "Moderation error - approved"
          error := some "socket hang up" }
    ∧ (checkSexualContent "hello" (.failure "ECONNRESET" "socket hang up")).error
      ≠ some "service_unavailable" := by
  constructor
  · rfl
  · decide

/-- C2 amended: for nonempty text, every transport failure yields an
approved (fail-open) verdict that is distinguishable from a normal approval
(its `error` field is populated, where a successful check carries none); the
distinguished `service_unavailable` reason appears exactly when the axios
error code is `ECONNREFUSED` or `ETIMEDOUT`, and any other failure carries
that failure's own message instead. -/
theorem checkSexualContent_transport_failopen (text code msg : String)
    (htext : ((jsTrim text).length == 0) = false) :
    (checkSexualContent text (.failure code msg)).is_sexual = false
    ∧ (checkSexualContent text (.failure code msg)).error.isSome = true
    ∧ (code = "ECONNREFUSED" ∨ code = "ETIMEDOUT" →
        (checkSexualContent text (.failure code msg)).error
          = some "service_unavailable")
    ∧ (code ≠ "ECONNREFUSED" → code ≠ "ETIMEDOUT" →
        (checkSexualContent text (.failure code msg)).error = some msg) := by
  unfold checkSexualContent
  rw [htext]
  by_cases h1 : code = "ECONNREFUSED"
  · simp [h1]
  · by_cases h2 : code = "ETIMEDOUT"
    · simp [h2]
    · have hb1 : (code == "ECONNREFUSED") = false := by simpa using h1
      have hb2 : (code == "ETIMEDOUT") = false := by simpa using h2
      simp [hb1, hb2, h1, h2]

/-- Witness for `checkSexualContent_transport_failopen` at text `"hello"`,
code `ECONNRESET`, message `"socket hang up"`. -/
theorem checkSexualContent_transport_failopen_witness :
    (((jsTrim "hello").length == 0) = false)
    ∧ ((checkSexualContent "hello" (.failure "ECONNRESET" "socket hang up")).is_sexual = false
      ∧ (checkSexualContent "hello" (.failure "ECONNRESET" "socket hang up")).error.isSome = true
      ∧ ("ECONNRESET" = "ECONNREFUSED" ∨ "ECONNRESET" = "ETIMEDOUT" →
          (checkSexualContent "hello" (.failure "ECONNRESET" "socket hang up")).error
            = some "service_unavailable")
      ∧ ("ECONNRESET" ≠ "ECONNREFUSED" → "ECONNRESET" ≠ "ETIMEDOUT" →
          (checkSexualContent "hello" (.failure "ECONNRESET" "socket hang up")).error
            = some "socket hang up")) :=
  ⟨by decide,
   checkSexualContent_transport_failopen "hello" "ECONNRESET" "socket hang up"
     (by decide)⟩

/-- C6: the `PUT /:messageId` edit route re-runs the moderation middleware
before the controller: when the classifier marks the (nonempty) new content
as sexual, the chain answers with the blocked response and the message store —
in particular the stored content of every message — is unchanged. -/
theorem editPipeline_moderation_blocks (msgs : List Message)
    (messageId content userId : String) (now : Nat)
    (outcome : ClassifierOutcome)
    (hcontent : ((jsTrim content).length == 0) = false)
    (hsexual : (checkSexualContent content outcome).is_sexual = true) :
    editMessagePipeline msgs messageId content userId now outcome
      = (.moderationBlocked, msgs) := by
  unfold editMessagePipeline
  rw [hcontent, hsexual]
  simp

/-- Witness for `editPipeline_moderation_blocks`: the empty store, content
`"bad"`, classifier response `result = true`. -/
theorem editPipeline_moderation_blocks_witness :
    (((jsTrim "bad").length == 0) = false)
    ∧ (checkSexualContent "bad" (.success true)).is_sexual = true
    ∧ editMessagePipeline [] "m1" "bad" "u1" 0 (.success true)
      = (.moderationBlocked, []) :=
  ⟨by decide, by decide,
   editPipeline_moderation_blocks [] "m1" "bad" "u1" 0 (.success true)
     (by decide) (by decide)⟩

/-- C10: guardian notification after a blocked verdict is deferred off the
sender's response path — the monitor's returned value is fixed before the
task runs, so it is identical whatever the user store, chat store or email
collaborator later do (first conjunct); a sender with no guardian contact on
file makes the task a no-op skip and not an error (second conjunct); and an
email-delivery failure is caught inside the task, which still returns
normally and still writes the incident log, never touching the sender's
already-computed response (third conjunct). -/
theorem guardianNotification_deferred_swallow (content senderId chatId : String)
    (outcome : ClassifierOutcome) (sender1 sender2 : Option SenderInfo)
    (chat1 chat2 chat : Option Chat) (email1 email2 : Except String Unit)
    (t : ScheduledTask) (s sp : SenderInfo) (pe msg : String)
    (hnoParent : s.parentEmail = none)
    (hparent : sp.parentEmail = some pe) :
    (monitorAndNotify content senderId chatId outcome sender1 chat1 email1).1
      = (monitorAndNotify content senderId chatId outcome sender2 chat2 email2).1
    ∧ runParentNotification t (some s) chat email1
      = { emailAttempted := false, emailDelivered := false
          incidentLogged := false, skippedReason := some "no_parent_email" }
    ∧ runParentNotification t (some sp) chat (.error msg)
      = { emailAttempted := true, emailDelivered := false
          incidentLogged := true, skippedReason := none } := by
  refine ⟨rfl, ?_, ?_⟩
  · simp [runParentNotification, hnoParent]
  · simp [runParentNotification, hparent]

/-- Witness for `guardianNotification_deferred_swallow` at concrete senders
with and without a guardian contact and a failing email delivery. -/
theorem guardianNotification_deferred_swallow_witness :
    ((⟨"kid", "kid@x.io", none, none⟩ : SenderInfo).parentEmail = none)
    ∧ ((⟨"kid2", "kid2@x.io", none, some "mom@x.io"⟩ : SenderInfo).parentEmail
        = some "mom@x.io")
    ∧ ((monitorAndNotify "bad" "u1" "c1" (.success true) none none (.ok ())).1
        = (monitorAndNotify "bad" "u1" "c1" (.success true)
            (some ⟨"kid", "kid@x.io", none, none⟩) none (.error "smtp down")).1
      ∧ runParentNotification ⟨"bad", "u1", "c1", "text"⟩
          (some ⟨"kid", "kid@x.io", none, none⟩) none (.ok ())
        = { emailAttempted := false, emailDelivered := false
            incidentLogged := false, skippedReason := some "no_parent_email" }
      ∧ runParentNotification ⟨"bad", "u1", "c1", "text"⟩
          (some ⟨"kid2", "kid2@x.io", none, some "mom@x.io"⟩) none
          (.error "smtp down")
        = { emailAttempted := true, emailDelivered := false
            incidentLogged := true, skippedReason := none }) :=
  ⟨rfl, rfl,
   guardianNotification_deferred_swallow "bad" "u1" "c1" (.success true)
     none (some ⟨"kid", "kid@x.io", none, none⟩) none none none
     (.ok ()) (.error "smtp down") ⟨"bad", "u1", "c1", "text"⟩
     ⟨"kid", "kid@x.io", none, none⟩ ⟨"kid2", "kid2@x.io", none, some "mom@x.io"⟩
     "mom@x.io" "smtp down" rfl rfl⟩

/-- C1: for an inbound `sendMessage` event with valid input and text
content on which the monitor returns a blocked verdict, the handler's entire
effect is: the store is unchanged (no message record, no
`lastMessage`/`lastActivity` movement), exactly one `messageBlocked` emit
goes to the sending socket and nothing else is emitted (in particular no
`newMessage` reaches any room), and the only background work is the
guardian-notification task the monitor scheduled. -/
theorem sendMessage_blocked_halts (st : ServerState) (sock user : String)
    (inp : SocketSendInput) (outcome : ClassifierOutcome) (now : Nat)
    (fid : String)
    (hchatId : (inp.chatId == "") = false)
    (hcontent : ((jsTrim inp.content).length == 0) = false)
    (htext : inp.messageType = "text")
    (hblocked : (monitorTextContent inp.content user inp.chatId outcome).1.blocked
      = true) :
    sendMessageHandler st sock user inp outcome now fid
      = (st, [{ target := .socket sock, event := "messageBlocked" }],
         (monitorTextContent inp.content user inp.chatId outcome).2) := by
  have hcontent2 : (inp.content == "") = false := by
    cases hEq : inp.content == "" with
    | false => rfl
    | true =>
        have hnil : inp.content = "" := by simpa using hEq
        rw [hnil] at hcontent
        exact absurd hcontent (by decide)
  unfold sendMessageHandler
  rw [hchatId, hcontent2, hcontent, htext]
  simp [hblocked]

/-- Witness for `sendMessage_blocked_halts`: empty store, input
`{chatId := "c1", content := "bad", messageType := "text"}`, classifier
response `result = true`. -/
theorem sendMessage_blocked_halts_witness :
    ((("c1" : String) == "") = false)
    ∧ (((jsTrim "bad").length == 0) = false)
    ∧ (monitorTextContent "bad" "u1" "c1" (.success true)).1.blocked = true
    ∧ sendMessageHandler { chats := [], messages := [] } "s1" "u1"
        { chatId := "c1", content := "bad", messageType := "text", replyTo := none }
        (.success true) 0 "m1"
      = ({ chats := [], messages := [] },
         [{ target := .socket "s1", event := "messageBlocked" }],
         (monitorTextContent "bad" "u1" "c1" (.success true)).2) :=
  ⟨by decide, by decide, by decide,
   sendMessage_blocked_halts { chats := [], messages := [] } "s1" "u1"
     { chatId := "c1", content := "bad", messageType := "text", replyTo := none }
     (.success true) 0 "m1" (by decide) (by decide) rfl (by decide)⟩

theorem applyMarkRead_twice (m : Message) (c : String) (ids : List String)
    (u : String) (t1 t2 : Nat) :
    applyMarkRead (applyMarkRead m c ids u t1) c ids u t2
      = applyMarkRead m c ids u t1 := by
  unfold applyMarkRead
  by_cases h : (ids.contains m.id && m.chat == c
      && !(m.readBy.any (fun r => r.user == u))) = true
  · rw [if_pos h]
    have hany : ((m.readBy ++ [({ user := u, readAt := t1 } : ReadReceipt)]).any
        (fun r => r.user == u)) = true := by
      simp
    simp [hany]
  · rw [if_neg h, if_neg h]

theorem applyMarkRead_countP (m : Message) (c : String) (ids : List String)
    (u : String) (t : Nat)
    (h : m.readBy.countP (fun r => r.user == u) ≤ 1) :
    (applyMarkRead m c ids u t).readBy.countP (fun r => r.user == u) ≤ 1 := by
  unfold applyMarkRead
  by_cases hg : (ids.contains m.id && m.chat == c
      && !(m.readBy.any (fun r => r.user == u))) = true
  · rw [if_pos hg]
    simp only [Bool.and_eq_true] at hg
    have hanyf : (m.readBy.any (fun r => r.user == u)) = false := by
      have := hg.2
      simpa using this
    have hzero : m.readBy.countP (fun r => r.user == u) = 0 := by
      rw [List.countP_eq_zero]
      intro a ha hpa
      have : (m.readBy.any (fun r => r.user == u)) = true :=
        List.any_eq_true.mpr ⟨a, ha, hpa⟩
      rw [hanyf] at this
      exact absurd this (by decide)
    simp [List.countP_append, hzero]
  · rw [if_neg hg]
    exact h

/-- C8: the `markMessagesRead` update is idempotent — applying it twice with
the same identity and message-id set (at any two clock readings) leaves
exactly the read-state one application produces — and, provided no message
already lists the identity twice, the result never lists the identity twice
in any message's read set (the `$ne` filter keeps the `$addToSet` from
firing on a message that already carries the reader). -/
theorem markMessagesRead_idempotent (msgs : List Message) (c : String)
    (ids : List String) (u : String) (t1 t2 : Nat)
    (hnodup : ∀ m ∈ msgs, m.readBy.countP (fun r => r.user == u) ≤ 1) :
    markMessagesRead (markMessagesRead msgs c ids u t1) c ids u t2
      = markMessagesRead msgs c ids u t1
    ∧ ∀ m ∈ markMessagesRead msgs c ids u t1,
        m.readBy.countP (fun r => r.user == u) ≤ 1 := by
  constructor
  · unfold markMessagesRead
    rw [List.map_map]
    apply List.map_congr_left
    intro m _
    exact applyMarkRead_twice m c ids u t1 t2
  · intro m hm
    obtain ⟨m0, hm0, rfl⟩ := List.mem_map.mp hm
    exact applyMarkRead_countP m0 c ids u t1 (hnodup m0 hm0)

/-- Witness for `markMessagesRead_idempotent`: one unread message `m1` in
chat `c1`, reader `u2`, id set `["m1"]`, clock readings 5 and 9. -/
theorem markMessagesRead_idempotent_witness :
    (∀ m ∈ [(⟨"m1", "hi", "text", "u1", "c1", none, false, none, false,
              [], [], 0⟩ : Message)],
        m.readBy.countP (fun r => r.user == "u2") ≤ 1)
    ∧ (markMessagesRead
         (markMessagesRead [(⟨"m1", "hi", "text", "u1", "c1", none, false,
            none, false, [], [], 0⟩ : Message)] "c1" ["m1"] "u2" 5)
         "c1" ["m1"] "u2" 9
        = markMessagesRead [(⟨"m1", "hi", "text", "u1", "c1", none, false,
            none, false, [], [], 0⟩ : Message)] "c1" ["m1"] "u2" 5
      ∧ ∀ m ∈ markMessagesRead [(⟨"m1", "hi", "text", "u1", "c1", none, false,
            none, false, [], [], 0⟩ : Message)] "c1" ["m1"] "u2" 5,
          m.readBy.countP (fun r => r.user == "u2") ≤ 1) :=
  ⟨by decide,
   markMessagesRead_idempotent
     [(⟨"m1", "hi", "text", "u1", "c1", none, false, none, false,
        [], [], 0⟩ : Message)] "c1" ["m1"] "u2" 5 9 (by decide)⟩

/-- C9: reaction toggling á la `addReaction`.  Starting from a reaction
array with no (identity, emoji) entry: one application appends exactly one
such entry (first and second conjuncts), a second application with the same
pair removes it again, restoring the array exactly (third conjunct), and the
operation never produces two entries with the same (identity, emoji) pair if
the array did not already contain duplicates (fourth conjunct). -/
theorem toggleReaction_toggle (l : List Reaction) (u e : String)
    (h : l.countP (fun r => r.user == u && r.emoji == e) = 0) :
    toggleReaction l u e = l ++ [{ user := u, emoji := e }]
    ∧ (toggleReaction l u e).countP (fun r => r.user == u && r.emoji == e) = 1
    ∧ toggleReaction (toggleReaction l u e) u e = l
    ∧ (∀ u2 e2, l.countP (fun r => r.user == u2 && r.emoji == e2) ≤ 1 →
        (toggleReaction l u e).countP (fun r => r.user == u2 && r.emoji == e2)
          ≤ 1) := by
  have hnone : l.findIdx? (fun r => r.user == u && r.emoji == e) = none := by
    rw [List.findIdx?_eq_none_iff]
    intro x hx
    have hnx := List.countP_eq_zero.mp h x hx
    simpa using hnx
  have hfirst : toggleReaction l u e = l ++ [{ user := u, emoji := e }] := by
    unfold toggleReaction
    rw [hnone]
  refine ⟨hfirst, ?_, ?_, ?_⟩
  · rw [hfirst, List.countP_append, h]
    simp
  · rw [hfirst]
    unfold toggleReaction
    rw [List.findIdx?_append, hnone]
    simp [List.findIdx?_cons]
    rw [List.eraseIdx_append_of_length_le (Nat.le_refl l.length)]
    simp
  · intro u2 e2 h2
    rw [hfirst, List.countP_append]
    by_cases hpx : (({ user := u, emoji := e } : Reaction).user == u2
        && ({ user := u, emoji := e } : Reaction).emoji == e2) = true
    · have hu : u = u2 := by
        have := (Bool.and_eq_true _ _).mp hpx
        simpa using this.1
      have he : e = e2 := by
        have := (Bool.and_eq_true _ _).mp hpx
        simpa using this.2
      subst hu
      subst he
      rw [h]
      simp
    · have hzero :
          ([({ user := u, emoji := e } : Reaction)].countP
            (fun r => r.user == u2 && r.emoji == e2)) = 0 := by
        rw [List.countP_eq_zero]
        intro a ha
        have hax : a = { user := u, emoji := e } := by simpa using ha
        rw [hax]
        exact hpx
      rw [hzero]
      simpa using h2

/-- Witness for `toggleReaction_toggle`: user `u2` toggling a thumbs-up on a
message already carrying one unrelated reaction by `u1`. -/
theorem toggleReaction_toggle_witness :
    (([(⟨"u1", "heart"⟩ : Reaction)].countP
        (fun r => r.user == "u2" && r.emoji == "thumbs")) = 0)
    ∧ (toggleReaction [(⟨"u1", "heart"⟩ : Reaction)] "u2" "thumbs"
        = [(⟨"u1", "heart"⟩ : Reaction)] ++ [{ user := "u2", emoji := "thumbs" }]
      ∧ (toggleReaction [(⟨"u1", "heart"⟩ : Reaction)] "u2" "thumbs").countP
          (fun r => r.user == "u2" && r.emoji == "thumbs") = 1
      ∧ toggleReaction (toggleReaction [(⟨"u1", "heart"⟩ : Reaction)] "u2" "thumbs")
          "u2" "thumbs" = [(⟨"u1", "heart"⟩ : Reaction)]
      ∧ (∀ u2 e2,
          ([(⟨"u1", "heart"⟩ : Reaction)].countP
            (fun r => r.user == u2 && r.emoji == e2)) ≤ 1 →
          (toggleReaction [(⟨"u1", "heart"⟩ : Reaction)] "u2" "thumbs").countP
            (fun r => r.user == u2 && r.emoji == e2) ≤ 1)) :=
  ⟨by decide,
   toggleReaction_toggle [(⟨"u1", "heart"⟩ : Reaction)] "u2" "thumbs" (by decide)⟩

theorem findMessage_map_of_id_preserving (msgs : List Message) (mid : String)
    (f : Message → Message) (hf : ∀ x, (f x).id = x.id) (m : Message)
    (hm : findMessage msgs mid = some m) :
    findMessage (msgs.map f) mid = some (f m) := by
  unfold findMessage at hm ⊢
  rw [List.find?_map]
  have hcomp : ((fun m2 : Message => m2.id == mid) ∘ f)
      = fun m2 => m2.id == mid := by
    funext x
    simp only [Function.comp_apply]
    rw [hf x]
  rw [hcomp, hm]
  rfl

/-- C5: editing is sender-only and window-bounded.  For a stored, undeleted
message and a nonempty replacement text: a non-sender's request is rejected
with 403 and the store unchanged; the sender's request at a clock reading
more than 15 minutes past `createdAt` is rejected with the
edit-time-limit error and the store unchanged; the sender's request at a
reading exactly 14 minutes past `createdAt` succeeds and the stored message
carries the trimmed new content with the edited flags set. -/
theorem editMessage_sender_window (msgs : List Message)
    (mid content u u2 : String) (now16 now14 : Nat) (m : Message)
    (hfind : findMessage msgs mid = some m)
    (hdel : m.isDeleted = false)
    (hsender : m.sender = u)
    (hother : u2 ≠ u)
    (hcontent : ((jsTrim content).length == 0) = false)
    (h16 : now16 - m.createdAt > editTimeLimit)
    (h14 : now14 - m.createdAt = 14 * 60 * 1000) :
    editMessage msgs mid content u now16
      = (.badRequest "Message edit time limit exceeded", msgs)
    ∧ editMessage msgs mid content u2 now16 = (.forbidden, msgs)
    ∧ (editMessage msgs mid content u now14).1 = .ok
    ∧ findMessage (editMessage msgs mid content u now14).2 mid
      = some { m with
                content := jsTrim content
                isEdited := true
                editedAt := some now14 } := by
  have hbne : (m.sender != u) = false := by
    rw [hsender]
    simp
  have hbne2 : (m.sender != u2) = true := by
    rw [hsender]
    simpa using fun hc => hother hc.symm
  refine ⟨?_, ?_, ?_, ?_⟩
  · unfold editMessage
    rw [hcontent, hfind]
    simp [hdel, hbne, h16]
  · unfold editMessage
    rw [hcontent, hfind]
    simp [hdel, hbne2]
  · unfold editMessage
    rw [hcontent, hfind]
    have hnot : ¬(now14 - m.createdAt > editTimeLimit) := by
      rw [h14]
      unfold editTimeLimit
      omega
    simp [hdel, hbne, hnot]
  · unfold editMessage
    rw [hcontent, hfind]
    have hnot : ¬(now14 - m.createdAt > editTimeLimit) := by
      rw [h14]
      unfold editTimeLimit
      omega
    simp only [hdel, hbne, hnot, Bool.false_eq_true, if_false, if_neg hnot]
    have happ := findMessage_map_of_id_preserving msgs mid
      (fun m2 => if m2.id == mid then
        { m2 with
            content := jsTrim content
            isEdited := true
            editedAt := some now14 }
        else m2)
      (by
        intro x
        by_cases hx : (x.id == mid) = true
        · simp [hx]
        · have hxf : (x.id == mid) = false := by simpa using hx
          simp [hxf])
      m hfind
    have hfind2 : List.find? (fun m2 : Message => m2.id == mid) msgs = some m :=
      hfind
    have hmid0 := List.find?_some hfind2
    have hmid : (m.id == mid) = true := hmid0
    simpa [hmid, hdel] using happ

/-- Witness for `editMessage_sender_window`: message `m1` created at time 0,
sender `u1`, outsider `u9`, edit attempts at 1,000,000 ms (over the
900,000 ms limit) and at 840,000 ms (14 minutes). -/
theorem editMessage_sender_window_witness :
    (findMessage [(⟨"m1", "old", "text", "u1", "c1", none, false, none,
        false, [], [], 0⟩ : Message)] "m1"
      = some (⟨"m1", "old", "text", "u1", "c1", none, false, none,
        false, [], [], 0⟩ : Message))
    ∧ (editMessage [(⟨"m1", "old", "text", "u1", "c1", none, false, none,
          false, [], [], 0⟩ : Message)] "m1" "new" "u1" 1000000
        = (.badRequest "Message edit time limit exceeded",
           [(⟨"m1", "old", "text", "u1", "c1", none, false, none,
             false, [], [], 0⟩ : Message)])
      ∧ editMessage [(⟨"m1", "old", "text", "u1", "c1", none, false, none,
          false, [], [], 0⟩ : Message)] "m1" "new" "u9" 1000000
        = (.forbidden,
           [(⟨"m1", "old", "text", "u1", "c1", none, false, none,
             false, [], [], 0⟩ : Message)])
      ∧ (editMessage [(⟨"m1", "old", "text", "u1", "c1", none, false, none,
          false, [], [], 0⟩ : Message)] "m1" "new" "u1" 840000).1 = .ok
      ∧ findMessage (editMessage [(⟨"m1", "old", "text", "u1", "c1", none,
          false, none, false, [], [], 0⟩ : Message)] "m1" "new" "u1" 840000).2
          "m1"
        = some (⟨"m1", jsTrim "new", "text", "u1", "c1", none, true,
            some 840000, false, [], [], 0⟩ : Message)) :=
  ⟨by decide,
   editMessage_sender_window
     [(⟨"m1", "old", "text", "u1", "c1", none, false, none, false,
        [], [], 0⟩ : Message)]
     "m1" "new" "u1" "u9" 1000000 840000
     (⟨"m1", "old", "text", "u1", "c1", none, false, none, false,
        [], [], 0⟩ : Message)
     (by decide) rfl rfl (by decide) (by decide) (by decide) (by decide)⟩

theorem sendMessage_nonmember_rejected (st : ServerState) (sock u : String)
    (inp : SocketSendInput) (outcome : ClassifierOutcome) (now : Nat)
    (fid : String) (chat : Chat)
    (hfound : findChat st.chats inp.chatId = some chat)
    (hpart : chat.isParticipant u = false) :
    ∃ ev tasks, sendMessageHandler st sock u inp outcome now fid
      = (st, [{ target := .socket sock, event := ev }], tasks)
      ∧ (ev = "error" ∨ ev = "messageBlocked") := by
  unfold sendMessageHandler
  by_cases hval : (inp.chatId == "" || inp.content == ""
      || (jsTrim inp.content).length == 0) = true
  · rw [if_pos hval]
    exact ⟨"error", [], rfl, Or.inl rfl⟩
  · rw [if_neg hval]
    by_cases hb : (if inp.messageType == "text" then
        monitorTextContent inp.content u inp.chatId outcome
      else
        ({ blocked := false, approved := true
           reason := none, userMessage := none }, [])).1.blocked = true
    · rw [if_pos hb]
      exact ⟨"messageBlocked", _, rfl, Or.inr rfl⟩
    · rw [if_neg hb]
      simp only [hfound]
      have hcond : (!chat.isActive || !chat.isParticipant u) = true := by
        rw [hpart]
        simp
      rw [if_pos hcond]
      exact ⟨"error", _, rfl, Or.inl rfl⟩

/-- C3 counterexample: user `u1` was removed from chat `c1` (their
participant entry is inactive), so they are not currently an active member;
yet `editMessage` on their own fresh message succeeds and changes the store
— the edit path is not "rejected without effect" for a non-member. -/
theorem editMessage_nonmember_succeeds_cex :
    (Chat.isParticipant
        ⟨"c1", [⟨"u1", "member", false⟩], true, none, 0⟩ "u1") = false
    ∧ (editMessage [(⟨"m1", "old", "text", "u1", "c1", none, false, none,
        false, [], [], 0⟩ : Message)] "m1" "hi" "u1" 60000).1 = .ok
    ∧ (editMessage [(⟨"m1", "old", "text", "u1", "c1", none, false, none,
        false, [], [], 0⟩ : Message)] "m1" "hi" "u1" 60000).2
      ≠ [(⟨"m1", "old", "text", "u1", "c1", none, false, none,
        false, [], [], 0⟩ : Message)] := by
  refine ⟨by decide, by decide, by decide⟩

/-- C3 amended: for an identity `u` that is not currently an active member
of the chat, the send operation is rejected without effect (the store is
unchanged and every emit is an `error` or `messageBlocked` to the sender —
never an acceptance) and the read operation answers `accessDenied` without
effect; membership is re-checked against the store at operation time.  The
edit operation, however, performs no chat-membership check: it is governed
only by the sender identity and the 15-minute window, so a sender removed
mid-session still edits their own message successfully. -/
theorem membership_send_read_not_edit (st : ServerState) (sock u : String)
    (inp : SocketSendInput) (outcome : ClassifierOutcome) (now : Nat)
    (fid : String) (chat : Chat) (msgs : List Message)
    (mid content : String) (m : Message) (nowE : Nat)
    (hfound : findChat st.chats inp.chatId = some chat)
    (hpart : chat.isParticipant u = false)
    (hactive : chat.isActive = true)
    (hm : findMessage msgs mid = some m)
    (hdel : m.isDeleted = false)
    (hsender : m.sender = u)
    (hcontent : ((jsTrim content).length == 0) = false)
    (hwin : ¬(nowE - m.createdAt > editTimeLimit)) :
    (sendMessageHandler st sock u inp outcome now fid).1 = st
    ∧ (∀ e ∈ (sendMessageHandler st sock u inp outcome now fid).2.1,
        e.event = "error" ∨ e.event = "messageBlocked")
    ∧ getChatMessages st inp.chatId u now = (.accessDenied, st)
    ∧ (editMessage msgs mid content u nowE).1 = .ok := by
  obtain ⟨ev, tasks, heq, hev⟩ :=
    sendMessage_nonmember_rejected st sock u inp outcome now fid chat
      hfound hpart
  refine ⟨by rw [heq], ?_, ?_, ?_⟩
  · intro e he
    rw [heq] at he
    have he2 : e = { target := .socket sock, event := ev } := by
      simpa using he
    rcases hev with h | h
    · left
      rw [he2, h]
    · right
      rw [he2, h]
  · unfold getChatMessages
    rw [hfound]
    simp [hactive, hpart]
  · unfold editMessage
    rw [hcontent, hm]
    have hbne : (m.sender != u) = false := by
      rw [hsender]
      simp
    simp [hdel, hbne, hwin]

/-- Witness for `membership_send_read_not_edit`: chat `c1` whose only
participant entry for `u1` is inactive, with `u1` sending to, reading and
editing in it. -/
theorem membership_send_read_not_edit_witness :
    (findChat [⟨"c1", [⟨"u1", "member", false⟩], true, none, 0⟩] "c1"
      = some ⟨"c1", [⟨"u1", "member", false⟩], true, none, 0⟩)
    ∧ ((sendMessageHandler
          { chats := [⟨"c1", [⟨"u1", "member", false⟩], true, none, 0⟩]
            messages := [] } "s1" "u1"
          { chatId := "c1", content := "hi", messageType := "text"
            replyTo := none } (.success false) 7 "m9").1
        = { chats := [⟨"c1", [⟨"u1", "member", false⟩], true, none, 0⟩]
            messages := [] }
      ∧ (∀ e ∈ (sendMessageHandler
          { chats := [⟨"c1", [⟨"u1", "member", false⟩], true, none, 0⟩]
            messages := [] } "s1" "u1"
          { chatId := "c1", content := "hi", messageType := "text"
            replyTo := none } (.success false) 7 "m9").2.1,
          e.event = "error" ∨ e.event = "messageBlocked")
      ∧ getChatMessages
          { chats := [⟨"c1", [⟨"u1", "member", false⟩], true, none, 0⟩]
            messages := [] } "c1" "u1" 7
        = (.accessDenied,
           { chats := [⟨"c1", [⟨"u1", "member", false⟩], true, none, 0⟩]
             messages := [] })
      ∧ (editMessage [(⟨"m1", "old", "text", "u1", "c1", none, false, none,
            false, [], [], 0⟩ : Message)] "m1" "hi" "u1" 60000).1 = .ok) :=
  ⟨by decide,
   membership_send_read_not_edit
     { chats := [⟨"c1", [⟨"u1", "member", false⟩], true, none, 0⟩]
       messages := [] } "s1" "u1"
     { chatId := "c1", content := "hi", messageType := "text", replyTo := none }
     (.success false) 7 "m9"
     ⟨"c1", [⟨"u1", "member", false⟩], true, none, 0⟩
     [(⟨"m1", "old", "text", "u1", "c1", none, false, none, false,
        [], [], 0⟩ : Message)]
     "m1" "hi"
     (⟨"m1", "old", "text", "u1", "c1", none, false, none, false,
        [], [], 0⟩ : Message)
     60000 (by decide) (by decide) (by decide) (by decide) rfl rfl
     (by decide) (by decide)⟩

theorem content_beq_empty_false (content : String)
    (h : ((jsTrim content).length == 0) = false) : (content == "") = false := by
  cases hEq : content == "" with
  | false => rfl
  | true =>
      have hnil : content = "" := by simpa using hEq
      rw [hnil] at h
      exact absurd h (by decide)

/-- C4: the `joinChat` handler joins the requesting socket to the requested
room channel with no membership or authorization precondition — for any
authenticated socket and any room identifier whatsoever, after the handler
runs the socket is in the channel (first conjunct) and every emit targeted
at that channel reaches it (second conjunct); and an approved `sendMessage`
for that chat fans `newMessage` out precisely to that channel (third
conjunct), so the joined socket receives every subsequent fan-out. -/
theorem joinChat_unconditional (st : SocketState) (sock uid : String)
    (srv : ServerState) (sock2 sender : String) (inp : SocketSendInput)
    (outcome : ClassifierOutcome) (now : Nat) (fid : String) (chat : Chat)
    (hchatId : (inp.chatId == "") = false)
    (hcontent : ((jsTrim inp.content).length == 0) = false)
    (htext : inp.messageType = "text")
    (hnb : (monitorTextContent inp.content sender inp.chatId outcome).1.blocked
      = false)
    (hfound : findChat srv.chats inp.chatId = some chat)
    (hactive : chat.isActive = true)
    (hpart : chat.isParticipant sender = true) :
    (joinChatHandler st sock uid inp.chatId).1.inRoom sock
        ("chat_" ++ inp.chatId) = true
    ∧ (∀ e : Emit, e.target = .room ("chat_" ++ inp.chatId) →
        deliveredTo (joinChatHandler st sock uid inp.chatId).1 e sock = true)
    ∧ (sendMessageHandler srv sock2 sender inp outcome now fid).2.1
      = [{ target := .room ("chat_" ++ inp.chatId), event := "newMessage" },
         { target := .socket sock2, event := "messageSent" }] := by
  have hjoin : (joinChatHandler st sock uid inp.chatId).1.inRoom sock
      ("chat_" ++ inp.chatId) = true := by
    simp [joinChatHandler, SocketState.inRoom]
  refine ⟨hjoin, ?_, ?_⟩
  · intro e he
    unfold deliveredTo
    rw [he]
    exact hjoin
  · have hval : (inp.chatId == "" || inp.content == ""
        || (jsTrim inp.content).length == 0) = false := by
      rw [hchatId, content_beq_empty_false inp.content hcontent, hcontent]
      rfl
    unfold sendMessageHandler
    rw [if_neg (by simp [hval])]
    rw [if_neg (by simp [htext, hnb])]
    simp only [hfound]
    have hcond : (!chat.isActive || !chat.isParticipant sender) = false := by
      rw [hactive, hpart]
      rfl
    rw [if_neg (by simp [hcond])]

/-- Witness for `joinChat_unconditional`: socket `sA` of outsider `u2` joins
chat `c1` it has no membership in, while member `u1` sends an approved
message there. -/
theorem joinChat_unconditional_witness :
    ((("c1" : String) == "") = false)
    ∧ (((jsTrim "hi").length == 0) = false)
    ∧ (monitorTextContent "hi" "u1" "c1" (.success false)).1.blocked = false
    ∧ findChat [⟨"c1", [⟨"u1", "member", true⟩], true, none, 0⟩] "c1"
      = some ⟨"c1", [⟨"u1", "member", true⟩], true, none, 0⟩
    ∧ ((joinChatHandler ⟨[], [], [], []⟩ "sA" "u2" "c1").1.inRoom "sA"
          ("chat_" ++ "c1") = true
      ∧ (∀ e : Emit, e.target = .room ("chat_" ++ "c1") →
          deliveredTo (joinChatHandler ⟨[], [], [], []⟩ "sA" "u2" "c1").1 e "sA"
            = true)
      ∧ (sendMessageHandler
          { chats := [⟨"c1", [⟨"u1", "member", true⟩], true, none, 0⟩]
            messages := [] } "sB" "u1"
          { chatId := "c1", content := "hi", messageType := "text"
            replyTo := none } (.success false) 3 "m7").2.1
        = [{ target := .room ("chat_" ++ "c1"), event := "newMessage" },
           { target := .socket "sB", event := "messageSent" }]) :=
  ⟨by decide, by decide, by decide, by decide,
   joinChat_unconditional ⟨[], [], [], []⟩ "sA" "u2"
     { chats := [⟨"c1", [⟨"u1", "member", true⟩], true, none, 0⟩]
       messages := [] } "sB" "u1"
     { chatId := "c1", content := "hi", messageType := "text", replyTo := none }
     (.success false) 3 "m7"
     ⟨"c1", [⟨"u1", "member", true⟩], true, none, 0⟩
     (by decide) (by decide) rfl (by decide) (by decide) (by decide) (by decide)⟩

end Chuti
